import Mathlib

/-!
# Verification of the incremental priority-aware computation engine

Shallow embedding of the core of the repository: the priority-tagged update
log (`processUpdateQueue` in the class update-queue module and `updateReducer`
in the hooks module), the hook-cell walk (`updateWorkInProgressHook`,
`finishRenderingHooks`, `renderWithHooksAgain`), the state setter
(`dispatchSetState`), and the cooperative task scheduler (`workLoop`,
`flushWork`, `unstable_scheduleCallback`, `shouldYieldToHost`).

Mutable linked lists are embedded as Lean lists in insertion order; module
level mutable variables are threaded through explicit state records; a JS
exception is an `Except.error`; JS `null` is `Option.none`.
-/

namespace ReactCore

/-- Decidable equality for `Except`, used to evaluate embedded functions on
concrete inputs. -/
instance {e a : Type} [DecidableEq e] [DecidableEq a] : DecidableEq (Except e a) := fun x y =>
  match x, y with
  | .ok v, .ok w =>
    if h : v = w then isTrue (by rw [h]) else isFalse (by intro hh; cases hh; exact h rfl)
  | .error v, .error w =>
    if h : v = w then isTrue (by rw [h]) else isFalse (by intro hh; cases hh; exact h rfl)
  | .ok _, .error _ => isFalse (by intro hh; cases hh)
  | .error _, .ok _ => isFalse (by intro hh; cases hh)

/-! ## Lanes

Modelled from the spec: the lane helpers (`isSubsetOfLanes`, `mergeLanes`,
`removeLanes`, `intersectLanes`, `NoLane`/`NoLanes`, `OffscreenLane`) are
imported from a lane module that is not under `src/`.  The spec describes a
lane as "an opaque priority tag drawn from a small fixed bitmask domain;
lanes can be merged (bitwise OR), intersected, subtracted, and tested for
subset relations.  A distinguished no-lane value is the zero element."
Lanes are embedded as natural numbers below `2^31` with bitwise operations;
`OffscreenLane` is a single high bit of the domain. -/

abbrev Lanes := Nat
abbrev Lane := Nat

def NoLanes : Lanes := 0

def NoLane : Lane := 0

def OffscreenLane : Lane := 2 ^ 30

/-- All 31 bits of the lane domain, used to translate the JS 32-bit
bitwise complement in `removeLanes`. -/
def TotalLanesMask : Lanes := 2 ^ 31 - 1

def mergeLanes (a b : Lanes) : Lanes := a ||| b

def removeLanes (set subset : Lanes) : Lanes := set &&& (TotalLanesMask ^^^ subset)

def intersectLanes (a b : Lanes) : Lanes := a &&& b

def isSubsetOfLanes (set subset : Lanes) : Bool := set &&& subset == subset

/-! ## Hook update queue (`updateReducer` in the hooks module)

Embedding of the do-while loop of `updateReducer`.  An `Update` node of the
hooks module carries a lane, the dispatched action, and the optional eagerly
computed state; the `next` pointers of the circular pending / base lists are
embedded by keeping the nodes in a Lean list in insertion order (the source
detaches the circular list at its `last.next` pointer, which yields exactly
this order). -/

structure HookUpdate (S A : Type) where
  lane : Lane
  action : A
  hasEagerState : Bool
  eagerState : Option S
  deriving DecidableEq, Repr

/-- The per-cell state that survives between render passes:
`hook.memoizedState`, `hook.baseState` and `hook.baseQueue`. -/
structure HookState (S A : Type) where
  memoizedState : S
  baseState : S
  baseQueue : List (HookUpdate S A)
  deriving DecidableEq, Repr

/-- Accumulator of the loop in `updateReducer`: the running `newState`, the
new base state frozen at the first skipped update (`none` while nothing has
been skipped), the new base queue built so far (`newFirstBaseUpdate` ..
`newLastBaseUpdate`), and the lanes merged into `currentlyRenderingFiber.lanes`
for skipped updates. -/
structure ReducerAcc (S A : Type) where
  newState : S
  newBaseState : Option S
  newBaseQueue : List (HookUpdate S A)
  fiberLanes : Lanes

/-- One iteration of the `do` loop of `updateReducer`, processing a single
update node.  `wipRootRenderLanes` is the value read by
`getWorkInProgressRootRenderLanes()` for hidden-tree updates. -/
def updateReducerStep {S A : Type} (reducer : S → A → S)
    (renderLanes wipRootRenderLanes : Lanes)
    (acc : ReducerAcc S A) (update : HookUpdate S A) : ReducerAcc S A :=
  let updateLane := removeLanes update.lane OffscreenLane
  let isHiddenUpdate := updateLane != update.lane
  let shouldSkipUpdate :=
    if isHiddenUpdate then !(isSubsetOfLanes wipRootRenderLanes updateLane)
    else !(isSubsetOfLanes renderLanes updateLane)
  if shouldSkipUpdate then
    -- Priority is insufficient.  Skip this update; if this is the first
    -- skipped update the previous state is the new base state.
    let clone : HookUpdate S A :=
      { lane := updateLane
        action := update.action
        hasEagerState := update.hasEagerState
        eagerState := update.eagerState }
    { newState := acc.newState
      newBaseState :=
        match acc.newBaseState with
        | none => some acc.newState
        | some b => some b
      newBaseQueue := acc.newBaseQueue ++ [clone]
      fiberLanes := mergeLanes acc.fiberLanes updateLane }
  else
    -- Sufficient priority.  If an update was skipped before, append a clone
    -- with `NoLane` (never skipped again), then apply the reducer (or reuse
    -- the eagerly computed state).
    let rebased :=
      if acc.newBaseQueue.isEmpty then acc.newBaseQueue
      else
        acc.newBaseQueue ++
          [{ lane := NoLane
             action := update.action
             hasEagerState := update.hasEagerState
             eagerState := update.eagerState }]
    let nextState :=
      if update.hasEagerState then (update.eagerState.getD acc.newState)
      else reducer acc.newState update.action
    { newState := nextState
      newBaseState := acc.newBaseState
      newBaseQueue := rebased
      fiberLanes := acc.fiberLanes }

/-- One full call of `updateReducer` for a cell, restricted to the queue
processing (the surrounding `updateWorkInProgressHook` walk is embedded
separately).  `pending` is the detached `queue.pending` circular list: it is
appended to `current.baseQueue` and the merged list is walked from
`current.baseState`.  Returns the updated cell state together with the lanes
merged into the owning unit for skipped updates (the owner's lanes are reset
to `NoLanes` before each pass by `renderWithHooks`). -/
def updateReducer {S A : Type} (reducer : S → A → S)
    (renderLanes wipRootRenderLanes : Lanes)
    (pending : List (HookUpdate S A)) (hook : HookState S A) :
    HookState S A × Lanes :=
  let baseQueue := hook.baseQueue ++ pending
  match baseQueue with
  | [] => (hook, NoLanes)
  | first :: rest =>
    let acc := (first :: rest).foldl
      (updateReducerStep reducer renderLanes wipRootRenderLanes)
      { newState := hook.baseState
        newBaseState := none
        newBaseQueue := []
        fiberLanes := NoLanes }
    let newBaseState :=
      match acc.newBaseState with
      | none => acc.newState
      | some b => b
    ({ memoizedState := acc.newState
       baseState := newBaseState
       baseQueue := acc.newBaseQueue }, acc.fiberLanes)

/-- A `useState` action: a replacement value or a function of the previous
state. -/
inductive BasicStateAction (S : Type) where
  | value (v : S)
  | fn (f : S → S)

/-- The `basicStateReducer`: replace, or call the function with the
previous state. -/
def basicStateReducer {S : Type} (state : S) (action : BasicStateAction S) : S :=
  match action with
  | .fn f => f state
  | .value v => v

/-- The mutator of the determinism scenario: each update appends its letter
to the string state. -/
def appendReducer (s : String) (a : String) : String := s ++ a

/-- A plain (never eagerly computed) update at a lane. -/
def mkHookUpdate (lane : Lane) (a : String) : HookUpdate String String :=
  { lane := lane, action := a, hasEagerState := false, eagerState := none }

/-- The scenario state after the pending list `A@1, B@2, C@1, D@2` has been
merged onto the (empty) base queue of a freshly mounted cell with initial
value `""`. -/
def scenarioStart : HookState String String :=
  { memoizedState := ""
    baseState := ""
    baseQueue := [mkHookUpdate 1 "A", mkHookUpdate 2 "B",
                  mkHookUpdate 1 "C", mkHookUpdate 2 "D"] }

/-- Drain the cell over a sequence of render passes, one set of render lanes
per pass (no new pending updates arrive between passes). -/
def drainPasses (ls : List Lanes) (st : HookState String String) :
    HookState String String :=
  ls.foldl (fun s l => (updateReducer appendReducer l NoLanes [] s).1) st

/-- A single pass of the scenario cell at the given render lanes. -/
def passAt (l : Lanes) (st : HookState String String) : HookState String String :=
  (updateReducer appendReducer l NoLanes [] st).1

/-- The carried-over cell state after draining the scenario at lane 1 only. -/
def S1 : HookState String String :=
  { memoizedState := "AC", baseState := "A",
    baseQueue := [mkHookUpdate 2 "B", mkHookUpdate 0 "C", mkHookUpdate 2 "D"] }

/-- The carried-over cell state after draining the scenario at lane 2 only. -/
def S2 : HookState String String :=
  { memoizedState := "BD", baseState := "",
    baseQueue := [mkHookUpdate 1 "A", mkHookUpdate 0 "B",
                  mkHookUpdate 1 "C", mkHookUpdate 0 "D"] }

/-- The fully drained scenario cell. -/
def SDone : HookState String String :=
  { memoizedState := "ABCD", baseState := "ABCD", baseQueue := [] }

/-- The reachable cell states of the scenario, under any sequence of render
passes. -/
def drainInvariant (st : HookState String String) : Prop :=
  st = scenarioStart ∨ st = S1 ∨ st = S2 ∨ st = SDone

/-! ## Class update queue (`processUpdateQueue` in the class update-queue module)

Embedding of `processUpdateQueue` and `getStateFromUpdate`.  A payload is
either a plain object (possibly `null`) or an updater function; updater
functions are embedded already closed over `instance` and `nextProps`, since
those are opaque collaborator values.  The JS `assign({}, prevState,
partialState)` merge helper comes from a shared module that is not under
`src/`; it is a parameter of the embedding.  Re-entrant appends to
`queue.shared.pending` made while an updater runs are functionalized as an
oracle: a list of batches, where batch `k` is the content of the shared
pending list the `k`-th time the walk reaches the end of its list (an empty
batch is a `null` pending list, ending the walk).  The structural-sharing
transfer of the detached pending run onto the alternate fiber's queue only
mutates the alternate's bookkeeping and is not observed here. -/

inductive UpdateTag where
  | updateState
  | replaceState
  | forceUpdate
  | captureUpdate
  deriving DecidableEq, Repr

inductive ClassPayload (σ : Type) where
  | obj (v : Option σ)
  | fn (f : Option σ → Option σ)

structure ClassUpdate (σ : Type) where
  eventTime : Nat
  lane : Lane
  tag : UpdateTag
  payload : ClassPayload σ
  callback : Option Nat

/-- Result of `getStateFromUpdate`: the next state, whether the global
`hasForceUpdate` was set, and whether the work-in-progress gained the
`DidCapture` flag. -/
structure StateFromUpdate (σ : Type) where
  state : Option σ
  hasForceUpdate : Bool
  didCapture : Bool

/-- The shared `UpdateState` / `CaptureUpdate` body of `getStateFromUpdate`
(the `CaptureUpdate` case falls through into `UpdateState`). -/
def updateStateBody {σ : Type} (assign : Option σ → σ → σ)
    (update : ClassUpdate σ) (prevState : Option σ) : Option σ :=
  let pState : Option σ :=
    match update.payload with
    | .fn f => f prevState
    | .obj v => v
  match pState with
  | none => prevState
  | some p => some (assign prevState p)

def getStateFromUpdate {σ : Type} (assign : Option σ → σ → σ)
    (update : ClassUpdate σ) (prevState : Option σ) : StateFromUpdate σ :=
  match update.tag with
  | .replaceState =>
    match update.payload with
    | .fn f => { state := f prevState, hasForceUpdate := false, didCapture := false }
    | .obj v => { state := v, hasForceUpdate := false, didCapture := false }
  | .captureUpdate =>
    { state := updateStateBody assign update prevState
      hasForceUpdate := false
      didCapture := true }
  | .updateState =>
    { state := updateStateBody assign update prevState
      hasForceUpdate := false
      didCapture := false }
  | .forceUpdate =>
    { state := prevState, hasForceUpdate := true, didCapture := false }

/-- Accumulator of the `do` loop of `processUpdateQueue`. -/
structure ClassQueueAcc (σ : Type) where
  newState : Option σ
  newBaseState : Option (Option σ)
  newBaseQueue : List (ClassUpdate σ)
  newLanes : Lanes
  callbacks : List Nat
  flagsCallback : Bool
  flagsVisibility : Bool
  didCapture : Bool
  hasForceUpdate : Bool

/-- One iteration of the `do` loop of `processUpdateQueue`. -/
def processUpdateStep {σ : Type} (assign : Option σ → σ → σ)
    (renderLanes wipRootRenderLanes : Lanes)
    (acc : ClassQueueAcc σ) (update : ClassUpdate σ) : ClassQueueAcc σ :=
  let updateLane := removeLanes update.lane OffscreenLane
  let isHiddenUpdate := updateLane != update.lane
  let shouldSkipUpdate :=
    if isHiddenUpdate then !(isSubsetOfLanes wipRootRenderLanes updateLane)
    else !(isSubsetOfLanes renderLanes updateLane)
  if shouldSkipUpdate then
    let clone : ClassUpdate σ :=
      { eventTime := update.eventTime
        lane := updateLane
        tag := update.tag
        payload := update.payload
        callback := update.callback }
    { acc with
      newBaseState :=
        match acc.newBaseState with
        | none => some acc.newState
        | some b => some b
      newBaseQueue := acc.newBaseQueue ++ [clone]
      newLanes := mergeLanes acc.newLanes updateLane }
  else
    let rebased :=
      if acc.newBaseQueue.isEmpty then acc.newBaseQueue
      else
        acc.newBaseQueue ++
          [{ eventTime := update.eventTime
             lane := NoLane
             tag := update.tag
             payload := update.payload
             callback := none }]
    let r := getStateFromUpdate assign update acc.newState
    match update.callback with
    | some cid =>
      { newState := r.state
        newBaseState := acc.newBaseState
        newBaseQueue := rebased
        newLanes := acc.newLanes
        callbacks := acc.callbacks ++ [cid]
        flagsCallback := true
        flagsVisibility := acc.flagsVisibility || isHiddenUpdate
        didCapture := acc.didCapture || r.didCapture
        hasForceUpdate := acc.hasForceUpdate || r.hasForceUpdate }
    | none =>
      { newState := r.state
        newBaseState := acc.newBaseState
        newBaseQueue := rebased
        newLanes := acc.newLanes
        callbacks := acc.callbacks
        flagsCallback := acc.flagsCallback
        flagsVisibility := acc.flagsVisibility
        didCapture := acc.didCapture || r.didCapture
        hasForceUpdate := acc.hasForceUpdate || r.hasForceUpdate }

/-- A straight run of the loop over one detached list of updates. -/
def processUpdateRun {σ : Type} (assign : Option σ → σ → σ)
    (renderLanes wipRootRenderLanes : Lanes)
    (updates : List (ClassUpdate σ)) (acc : ClassQueueAcc σ) : ClassQueueAcc σ :=
  updates.foldl (processUpdateStep assign renderLanes wipRootRenderLanes) acc

/-- The tail of the `do` loop: when the walk reaches the end of its list it
re-reads `queue.shared.pending`; a `null` (empty) read breaks the loop,
otherwise the new pending run is spliced onto the tail of the walk and
processing continues. -/
def processUpdateQueueGo {σ : Type} (assign : Option σ → σ → σ)
    (renderLanes wipRootRenderLanes : Lanes)
    (acc : ClassQueueAcc σ) :
    List (List (ClassUpdate σ)) → ClassQueueAcc σ
  | [] => acc
  | b :: rest =>
    if b.isEmpty then acc
    else
      processUpdateQueueGo assign renderLanes wipRootRenderLanes
        (processUpdateRun assign renderLanes wipRootRenderLanes b acc) rest

/-- The work-in-progress class update queue, as observed by
`processUpdateQueue`: `queue.baseState`, the straight base list
`queue.firstBaseUpdate .. queue.lastBaseUpdate`, and the detached
`queue.shared.pending` run in insertion order. -/
structure ClassQueue (σ : Type) where
  baseState : Option σ
  firstBaseUpdate : List (ClassUpdate σ)
  sharedPending : List (ClassUpdate σ)

/-- Result of `processUpdateQueue`: the persisted queue fields, the new
`workInProgress.memoizedState` and `workInProgress.lanes`, the accumulated
`queue.callbacks`, the flag bits set on the work-in-progress, and the global
`hasForceUpdate`. -/
structure ProcessUQResult (σ : Type) where
  baseState : Option σ
  firstBaseUpdate : List (ClassUpdate σ)
  memoizedState : Option σ
  fiberLanes : Lanes
  callbacks : List Nat
  flagsCallback : Bool
  flagsVisibility : Bool
  didCapture : Bool
  hasForceUpdate : Bool

def processUpdateQueue {σ : Type} (assign : Option σ → σ → σ)
    (renderLanes wipRootRenderLanes : Lanes)
    (memoizedState : Option σ) (fiberLanes : Lanes)
    (queue : ClassQueue σ)
    (reentrant : List (List (ClassUpdate σ))) : ProcessUQResult σ :=
  -- hasForceUpdate is reset before processing.
  -- Detach the circular pending list and append it to the base queue.
  let firstBaseUpdate := queue.firstBaseUpdate ++ queue.sharedPending
  match firstBaseUpdate with
  | [] =>
    { baseState := queue.baseState
      firstBaseUpdate := []
      memoizedState := memoizedState
      fiberLanes := fiberLanes
      callbacks := []
      flagsCallback := false
      flagsVisibility := false
      didCapture := false
      hasForceUpdate := false }
  | first :: rest =>
    let acc := processUpdateQueueGo assign renderLanes wipRootRenderLanes
      (processUpdateRun assign renderLanes wipRootRenderLanes (first :: rest)
        { newState := queue.baseState
          newBaseState := none
          newBaseQueue := []
          newLanes := NoLanes
          callbacks := []
          flagsCallback := false
          flagsVisibility := false
          didCapture := false
          hasForceUpdate := false })
      reentrant
    let newBaseState :=
      match acc.newBaseState with
      | none => acc.newState
      | some b => b
    { baseState := newBaseState
      firstBaseUpdate := acc.newBaseQueue
      memoizedState := acc.newState
      fiberLanes := acc.newLanes
      callbacks := acc.callbacks
      flagsCallback := acc.flagsCallback
      flagsVisibility := acc.flagsVisibility
      didCapture := acc.didCapture
      hasForceUpdate := acc.hasForceUpdate }

/-- The class-queue version of the determinism scenario: `ReplaceState`
updates whose updater appends a letter to the string state. -/
def mkClassUpdate (lane : Lane) (a : String) : ClassUpdate String :=
  { eventTime := 0
    lane := lane
    tag := .replaceState
    payload := .fn (fun s => some ((s.getD "") ++ a))
    callback := none }

/-- Object merging for string states: the merge result is the incoming
value (only used where the scenario never reaches `assign`). -/
def stringAssign (_ : Option String) (p : String) : String := p

/-! ## Hook cell walk (`updateWorkInProgressHook` / `finishRenderingHooks`)

Embedding of the update-mode walk over the per-unit hook lists.  A hook cell
has the four persisted fields of the source `Hook` record; `next` pointers
are embedded by keeping the chains as Lean lists.  The module variables
`currentHook` and `workInProgressHook` are cursors: `currentHook` is either
a position in the alternate fiber's chain or the fresh cell created on the
suspend-resume path (alternate `null`); `workInProgressHook` is a position
in the work-in-progress chain.  `currentlyRenderingFiber.memoizedState` is
the work-in-progress chain itself (reset to `null` by `renderWithHooks`
before the component body runs). -/

structure Hook (S Q : Type) where
  memoizedState : Option S
  baseState : Option S
  baseQueue : Option Q
  queue : Option Q
  deriving DecidableEq, Repr

/-- The `currentHook` module variable: `null`, a node of the alternate
fiber's chain, or the fresh cell created when there is no alternate. -/
inductive CurrentHookPtr (S Q : Type) where
  | inChain (k : Nat)
  | freshHook (h : Hook S Q)
  deriving DecidableEq, Repr

structure HookRenderState (S Q : Type) where
  curChain : List (Hook S Q)
  hasAlternate : Bool
  currentHook : Option (CurrentHookPtr S Q)
  wipChain : List (Hook S Q)
  workInProgressHook : Option Nat
  deriving DecidableEq, Repr

/-- One call of `updateWorkInProgressHook` (one stateful primitive call in
an update or re-render pass).  Returns the work-in-progress hook cell and
the advanced cursors, or throws when a cell is requested past the end of
the current chain on an update. -/
def updateWorkInProgressHook {S Q : Type} (s : HookRenderState S Q) :
    Except String (Hook S Q × HookRenderState S Q) :=
  let nextCurrentHook : Option (Nat × Hook S Q) :=
    match s.currentHook with
    | none =>
      if s.hasAlternate then
        match s.curChain[0]? with
        | some h => some (0, h)
        | none => none
      else none
    | some (.inChain k) =>
      match s.curChain[k + 1]? with
      | some h => some (k + 1, h)
      | none => none
    | some (.freshHook _) => none
  let nextWorkInProgressHook : Option (Nat × Hook S Q) :=
    match s.workInProgressHook with
    | none =>
      match s.wipChain[0]? with
      | some h => some (0, h)
      | none => none
    | some j =>
      match s.wipChain[j + 1]? with
      | some h => some (j + 1, h)
      | none => none
  match nextWorkInProgressHook with
  | some (j, h) =>
    -- There is already a work-in-progress hook from an earlier pass: reuse it.
    .ok (h, { s with
      workInProgressHook := some j
      currentHook := nextCurrentHook.map (fun p => .inChain p.1) })
  | none =>
    -- Clone from the current hook.
    match nextCurrentHook with
    | none =>
      if s.hasAlternate then
        .error "Rendered more hooks than during the previous render."
      else
        -- Initial render that suspended and resumed with an extra hook:
        -- work from a fresh cell.
        let newHook : Hook S Q :=
          { memoizedState := none, baseState := none, baseQueue := none, queue := none }
        .ok (newHook, { s with
          currentHook := some (.freshHook newHook)
          wipChain := s.wipChain ++ [newHook]
          workInProgressHook := some s.wipChain.length })
    | some (k, cur) =>
      let newHook : Hook S Q :=
        { memoizedState := cur.memoizedState
          baseState := cur.baseState
          baseQueue := cur.baseQueue
          queue := cur.queue }
      .ok (newHook, { s with
        currentHook := some (.inChain k)
        wipChain := s.wipChain ++ [newHook]
        workInProgressHook := some s.wipChain.length })

/-- The check `currentHook !== null && currentHook.next !== null` made at
the end of a pass by `finishRenderingHooks`. -/
def didRenderTooFewHooks {S Q : Type} (s : HookRenderState S Q) : Bool :=
  match s.currentHook with
  | none => false
  | some (.freshHook _) => false
  | some (.inChain k) => decide (k + 1 < s.curChain.length)

/-- The hook-count check of `finishRenderingHooks` (the remainder of that
function resets module variables and dev-only bookkeeping). -/
def finishRenderingHooks {S Q : Type} (s : HookRenderState S Q) :
    Except String Unit :=
  if didRenderTooFewHooks s then
    .error
      "Rendered fewer hooks than expected. This may be caused by an accidental early return statement."
  else
    .ok ()

/-- Perform `n` stateful primitive calls (each one a call of
`updateWorkInProgressHook`). -/
def runHookCalls {S Q : Type} :
    Nat → HookRenderState S Q → Except String (HookRenderState S Q)
  | 0, s => .ok s
  | n + 1, s =>
    match updateWorkInProgressHook s with
    | .error e => .error e
    | .ok (_, s2) => runHookCalls n s2

/-- The cursor state at the start of an update-mode pass over a unit whose
previous render produced `curChain`: the work-in-progress chain was reset to
`null` by `renderWithHooks` and both cursors are `null`. -/
def updatePassStart {S Q : Type} (curChain : List (Hook S Q)) :
    HookRenderState S Q :=
  { curChain := curChain
    hasAlternate := true
    currentHook := none
    wipChain := []
    workInProgressHook := none }

/-- A whole update-mode invocation that makes `n` stateful primitive calls:
run the calls, then apply the `finishRenderingHooks` check. -/
def updateRenderPass {S Q : Type} (curChain : List (Hook S Q)) (n : Nat) :
    Except String (HookRenderState S Q) :=
  match runHookCalls n (updatePassStart curChain) with
  | .error e => .error e
  | .ok s =>
    match finishRenderingHooks s with
    | .error e => .error e
    | .ok _ => .ok s

/-- The cursor state after `k` successful primitive calls of an update-mode
pass (the `k`-th visited current cell and the cloned work-in-progress
prefix). -/
def passState {S Q : Type} (curChain : List (Hook S Q)) (k : Nat) :
    HookRenderState S Q :=
  { curChain := curChain
    hasAlternate := true
    currentHook := if k = 0 then none else some (.inChain (k - 1))
    wipChain := curChain.take k
    workInProgressHook := if k = 0 then none else some (k - 1) }

/-- A previous render that used two stateful primitives. -/
def twoHookChain : List (Hook Nat Nat) :=
  [{ memoizedState := none, baseState := none, baseQueue := none, queue := none },
   { memoizedState := none, baseState := none, baseQueue := none, queue := none }]

/-! ## Bounded re-render loop (`renderWithHooksAgain`)

The component body is embedded as a function from the current value of
`numberOfReRenders` to the produced children together with the value of
`didScheduleRenderPhaseUpdateDuringThisPass` after the invocation (set when
the body dispatched a render-phase update). -/

def RE_RENDER_LIMIT : Nat := 25

/-- Result of `renderWithHooksAgain`: the children (or the thrown error)
and the final value of `numberOfReRenders`. -/
structure RenderAgainResult (C : Type) where
  children : Except String C
  numberOfReRenders : Nat
  deriving DecidableEq, Repr

def renderWithHooksAgainGo {C : Type} (body : Nat → C × Bool)
    (numberOfReRenders : Nat) : RenderAgainResult C :=
  if numberOfReRenders ≥ RE_RENDER_LIMIT then
    { children :=
        .error "Too many re-renders. React limits the number of renders to prevent an infinite loop."
      numberOfReRenders := numberOfReRenders }
  else
    let r := body numberOfReRenders
    if r.2 then renderWithHooksAgainGo body (numberOfReRenders + 1)
    else { children := .ok r.1, numberOfReRenders := numberOfReRenders + 1 }
  termination_by RE_RENDER_LIMIT - numberOfReRenders
  decreasing_by simp_wf; omega

def renderWithHooksAgain {C : Type} (body : Nat → C × Bool) :
    RenderAgainResult C :=
  renderWithHooksAgainGo body 0

/-! ## The state setter (`dispatchSetState`)

The collaborators of `dispatchSetState` that are not under `src/` are
functionalized: `requestUpdateLane` is the `requestedLane` field of the
calling context, `enqueueConcurrentHookUpdate` returns a root when the fiber
is attached, and `scheduleUpdateOnFiber` / the eager-bailout enqueue are
recorded in the outcome.  `isRenderPhaseUpdate` compares the fiber and its
alternate against `currentlyRenderingFiber`; that comparison is the
`isRendering` field.  The `is` comparison (shared `objectIs`, not under
`src/`) is value equality.  The last rendered reducer may throw, so it
returns an `Except`. -/

structure FiberCtx where
  lanes : Lanes
  alternateLanes : Option Lanes
  isRendering : Bool
  rootAttached : Bool
  requestedLane : Lane

structure HookQueueCtx (S A : Type) where
  lastRenderedReducer : Option (S → A → Except String S)
  lastRenderedState : S

/-- What `dispatchSetState` did: stash a render-phase update, record the
update and eagerly bail out without scheduling, or enqueue the update
(scheduling a re-evaluation at the lane when a root is attached). -/
inductive DispatchOutcome (S A : Type) where
  | renderPhase (u : HookUpdate S A)
  | eagerBailout (u : HookUpdate S A)
  | enqueued (u : HookUpdate S A) (scheduled : Bool)

def dispatchSetState {S A : Type} [DecidableEq S]
    (fiber : FiberCtx) (queue : HookQueueCtx S A) (action : A) :
    DispatchOutcome S A :=
  let lane := fiber.requestedLane
  let update : HookUpdate S A :=
    { lane := lane, action := action, hasEagerState := false, eagerState := none }
  if fiber.isRendering then
    .renderPhase update
  else
    let eager :=
      if fiber.lanes == NoLanes &&
          (fiber.alternateLanes.getD NoLanes == NoLanes) then
        match queue.lastRenderedReducer with
        | some lastRenderedReducer =>
          match lastRenderedReducer queue.lastRenderedState action with
          | .ok eagerState =>
            let update2 :=
              { update with hasEagerState := true, eagerState := some eagerState }
            if eagerState = queue.lastRenderedState then
              some (DispatchOutcome.eagerBailout update2)
            else
              -- fall through to the common enqueue path, keeping the
              -- eagerly computed state on the update
              some (.enqueued update2 fiber.rootAttached)
          | .error _ =>
            -- Suppress the error; it will throw again in the render phase.
            none
        | none => none
      else none
    match eager with
    | some outcome => outcome
    | none => .enqueued update fiber.rootAttached

/-! ## Task scheduler

Embedding of the scheduler module of `src/unnamed/part_001`.  The module
level mutable variables (`taskQueue`, `timerQueue`, `currentTask`,
`currentPriorityLevel`, `taskIdCounter`, the host flags and the clock) are
threaded as a state record.  A task callback is embedded as a function from
the `didUserCallbackTimeout` flag to an outcome (completion, a continuation
callback, or a thrown error) together with the time the callback consumed
(the clock is re-read after every callback).  In this embedding a callback
does not touch the queues, so the `currentTask === peek(taskQueue)` identity
check before popping always holds.

Modelled from the spec: the binary min-heap (`push`/`peek`/`pop` of the
scheduler min-heap module, not under `src/`) orders entries by `sortIndex`
with ties broken by the monotonically increasing insertion `id`; it is
embedded as a list sorted by that key, so `peek` is the head and `pop` drops
it.  The priority constants (a priority-level module not under `src/`) are
the five levels `1`..`5`; the feature flags (also not under `src/`) follow
the spec: the input-pending escalation is active, profiling and the debug
pause are absent. -/

def ImmediatePriority : Nat := 1
def UserBlockingPriority : Nat := 2
def NormalPriority : Nat := 3
def LowPriority : Nat := 4
def IdlePriority : Nat := 5

def enableIsInputPending : Bool := true
def enableIsInputPendingContinuous : Bool := true
def enableSchedulerDebugging : Bool := false

def frameYieldMs : Int := 5
def continuousYieldMs : Int := 50
def maxYieldMs : Int := 300

/-- Max 31 bit integer, the timeout of the idle priority level. -/
def maxSigned31BitInt : Int := 1073741823

def IMMEDIATE_PRIORITY_TIMEOUT : Int := -1
def USER_BLOCKING_PRIORITY_TIMEOUT : Int := 250
def NORMAL_PRIORITY_TIMEOUT : Int := 5000
def LOW_PRIORITY_TIMEOUT : Int := 10000
def IDLE_PRIORITY_TIMEOUT : Int := maxSigned31BitInt

/-- Outcome of running a task callback: it completed, returned a
continuation callback, or threw. -/
inductive CBOutcome (α : Type) where
  | completed
  | continuation (c : α)
  | thrown (e : String)

inductive Callback where
  | mk (run : Bool → CBOutcome Callback × Nat)

def Callback.run : Callback → Bool → CBOutcome Callback × Nat
  | .mk f, b => f b

structure Task where
  id : Nat
  callback : Option Callback
  priorityLevel : Nat
  startTime : Int
  expirationTime : Int
  sortIndex : Int

/-- The heap order: `sortIndex`, ties broken by insertion `id`. -/
def taskBefore (a b : Task) : Bool :=
  a.sortIndex < b.sortIndex || (a.sortIndex == b.sortIndex && a.id ≤ b.id)

def push (queue : List Task) (t : Task) : List Task :=
  match queue with
  | [] => [t]
  | h :: rest => if taskBefore h t then h :: push rest t else t :: h :: rest

def peek (queue : List Task) : Option Task := queue.head?

def pop (queue : List Task) : List Task := queue.tail

/-- How the work loop exited (a specification observation, not a source
variable): the cooperative break, a callback returning a continuation, the
debug pause, or a drained ready queue. -/
inductive WorkLoopExit where
  | breakYield
  | continuationYield
  | paused
  | drained
  deriving DecidableEq, Repr

structure SchedulerSt where
  taskQueue : List Task
  timerQueue : List Task
  currentTask : Option Task
  currentPriorityLevel : Nat
  currentTime : Int
  taskIdCounter : Nat
  isSchedulerPaused : Bool
  isHostCallbackScheduled : Bool
  isHostTimeoutScheduled : Bool
  isPerformingWork : Bool
  /-- `requestHostCallback(flushWork)` was issued. -/
  hostCallbackRequested : Bool
  /-- `requestHostTimeout(handleTimeout, d)` was issued with delay `d`
  (`none` after `cancelHostTimeout`). -/
  hostTimeoutRequested : Option Int
  /-- Observation: the `(id, didUserCallbackTimeout)` of every callback
  invocation, in order. -/
  invoked : List (Nat × Bool)
  /-- Observation: how the last work loop exited. -/
  exitReason : Option WorkLoopExit

/-- The timer promotion `advanceTimers`: move due timers into the ready
queue, dropping cancelled ones. -/
def advanceTimers (currentTime : Int) (taskQueue : List Task) :
    List Task → List Task × List Task
  | [] => (taskQueue, [])
  | timer :: rest =>
    match timer.callback with
    | none =>
      -- Timer was cancelled.
      advanceTimers currentTime taskQueue rest
    | some _ =>
      if timer.startTime ≤ currentTime then
        -- Timer fired. Transfer to the task queue.
        advanceTimers currentTime
          (push taskQueue { timer with sortIndex := timer.expirationTime }) rest
      else
        -- Remaining timers are pending.
        (taskQueue, timer :: rest)

/-- The ambient host inputs of one work-loop turn: the `hasTimeRemaining`
argument and the `shouldYieldToHost()` probe (a function of the clock, since
the probe reads the host environment). -/
structure WorkLoopEnv where
  hasTimeRemaining : Bool
  shouldYield : Int → Bool

/-- One iteration of the `while` loop of `workLoop`: either the loop
returns (`ret`) or proceeds to the next iteration (`next`). -/
inductive WorkLoopStep where
  | ret (r : Except (String × SchedulerSt) (Bool × SchedulerSt))
  | next (s : SchedulerSt)

def workLoopIter (env : WorkLoopEnv) (s : SchedulerSt) : WorkLoopStep :=
  match s.currentTask with
  | none =>
    -- No current task: the loop is over; if a delayed task remains, arm a
    -- host timeout for it, then report that no additional work remains.
    match peek s.timerQueue with
    | some firstTimer =>
      .ret (.ok (false,
        { s with
          hostTimeoutRequested := some (firstTimer.startTime - s.currentTime)
          exitReason := some .drained }))
    | none => .ret (.ok (false, { s with exitReason := some .drained }))
  | some t =>
    if enableSchedulerDebugging && s.isSchedulerPaused then
      .ret (.ok (true, { s with exitReason := some .paused }))
    else if t.expirationTime > s.currentTime &&
        (!env.hasTimeRemaining || env.shouldYield s.currentTime) then
      -- The current task has not expired and we have reached the deadline.
      .ret (.ok (true, { s with exitReason := some .breakYield }))
    else
      match t.callback with
      | some cb =>
        let t0 := { t with callback := none }
        let s1 :=
          { s with
            taskQueue := t0 :: s.taskQueue.tail
            currentTask := some t0
            currentPriorityLevel := t.priorityLevel }
        let didUserCallbackTimeout := decide (t.expirationTime ≤ s.currentTime)
        let r := cb.run didUserCallbackTimeout
        let s2 :=
          { s1 with
            currentTime := s1.currentTime + r.2
            invoked := s1.invoked ++ [(t.id, didUserCallbackTimeout)] }
        match r.1 with
        | .thrown e => .ret (.error (e, s2))
        | .continuation c =>
          -- The task is not finished: leave it at the head with the
          -- continuation substituted, advance timers and yield.
          let tc := { t0 with callback := some c }
          let s3 :=
            { s2 with taskQueue := tc :: s2.taskQueue.tail, currentTask := some tc }
          let q := advanceTimers s3.currentTime s3.taskQueue s3.timerQueue
          .ret (.ok (true,
            { s3 with
              taskQueue := q.1
              timerQueue := q.2
              exitReason := some .continuationYield }))
        | .completed =>
          let s3 := { s2 with taskQueue := pop s2.taskQueue }
          let q := advanceTimers s3.currentTime s3.taskQueue s3.timerQueue
          .next
            { s3 with
              taskQueue := q.1
              timerQueue := q.2
              currentTask := peek q.1 }
      | none =>
        let s1 := { s with taskQueue := pop s.taskQueue }
        .next { s1 with currentTask := peek s1.taskQueue }

/-- The fueled `while` loop of `workLoop` (`none` means the fuel ran out
before the loop finished). -/
def workLoopGo (env : WorkLoopEnv) :
    Nat → SchedulerSt → Option (Except (String × SchedulerSt) (Bool × SchedulerSt))
  | 0, _ => none
  | fuel + 1, s =>
    match workLoopIter env s with
    | .ret r => some r
    | .next s2 => workLoopGo env fuel s2

def workLoop (env : WorkLoopEnv) (initialTime : Int) (fuel : Nat)
    (s : SchedulerSt) :
    Option (Except (String × SchedulerSt) (Bool × SchedulerSt)) :=
  let s1 := { s with currentTime := initialTime }
  let q := advanceTimers initialTime s1.taskQueue s1.timerQueue
  let s2 :=
    { s1 with
      taskQueue := q.1
      timerQueue := q.2
      currentTask := peek q.1
      exitReason := none }
  workLoopGo env fuel s2

/-- The entry bookkeeping of `flushWork`: drop the host-callback flag,
cancel a no-longer-needed host timeout, and mark the scheduler as
performing work. -/
def flushWorkPrologue (s : SchedulerSt) : SchedulerSt :=
  -- We will need a host callback the next time work is scheduled.
  let s1 := { s with isHostCallbackScheduled := false }
  let s2 :=
    if s1.isHostTimeoutScheduled then
      -- We scheduled a timeout but it is no longer needed. Cancel it.
      { s1 with isHostTimeoutScheduled := false, hostTimeoutRequested := none }
    else s1
  { s2 with isPerformingWork := true }

def flushWork (env : WorkLoopEnv) (initialTime : Int) (fuel : Nat)
    (s : SchedulerSt) :
    Option (Except (String × SchedulerSt) (Bool × SchedulerSt)) :=
  let s3 := flushWorkPrologue s
  let previousPriorityLevel := s3.currentPriorityLevel
  -- The `finally` cleanup below runs on both the normal and the throwing
  -- path of `workLoop`.
  match workLoop env initialTime fuel s3 with
  | none => none
  | some (.ok (hasMoreWork, st)) =>
    some (.ok (hasMoreWork,
      { st with
        currentTask := none
        currentPriorityLevel := previousPriorityLevel
        isPerformingWork := false }))
  | some (.error (e, st)) =>
    some (.error (e,
      { st with
        currentTask := none
        currentPriorityLevel := previousPriorityLevel
        isPerformingWork := false }))

def timeoutForPriority (priorityLevel : Nat) : Int :=
  if priorityLevel == ImmediatePriority then IMMEDIATE_PRIORITY_TIMEOUT
  else if priorityLevel == UserBlockingPriority then USER_BLOCKING_PRIORITY_TIMEOUT
  else if priorityLevel == IdlePriority then IDLE_PRIORITY_TIMEOUT
  else if priorityLevel == LowPriority then LOW_PRIORITY_TIMEOUT
  else NORMAL_PRIORITY_TIMEOUT

def unstable_scheduleCallback (priorityLevel : Nat) (callback : Callback)
    (delayOpt : Option Int) (s : SchedulerSt) : Task × SchedulerSt :=
  let currentTime := s.currentTime
  let startTime :=
    match delayOpt with
    | some delay => if delay > 0 then currentTime + delay else currentTime
    | none => currentTime
  let timeout := timeoutForPriority priorityLevel
  let expirationTime := startTime + timeout
  let newTask : Task :=
    { id := s.taskIdCounter
      callback := some callback
      priorityLevel := priorityLevel
      startTime := startTime
      expirationTime := expirationTime
      sortIndex := -1 }
  let s1 := { s with taskIdCounter := s.taskIdCounter + 1 }
  if startTime > currentTime then
    -- This is a delayed task.
    let newTask := { newTask with sortIndex := startTime }
    let tmq := push s1.timerQueue newTask
    -- `newTask === peek(timerQueue)` is an identity comparison; ids are
    -- unique, so it is the id comparison below.
    if s1.taskQueue.isEmpty && (peek tmq).map Task.id == some newTask.id then
      let s2 :=
        if s1.isHostTimeoutScheduled then { s1 with hostTimeoutRequested := none }
        else { s1 with isHostTimeoutScheduled := true }
      (newTask,
        { s2 with
          timerQueue := tmq
          hostTimeoutRequested := some (startTime - currentTime) })
    else (newTask, { s1 with timerQueue := tmq })
  else
    let newTask := { newTask with sortIndex := expirationTime }
    let s2 := { s1 with taskQueue := push s1.taskQueue newTask }
    if !s2.isHostCallbackScheduled && !s2.isPerformingWork then
      (newTask,
        { s2 with isHostCallbackScheduled := true, hostCallbackRequested := true })
    else (newTask, s2)

/-! ## Yield heuristic (`shouldYieldToHost`)

The ambient host state read by one call of `shouldYieldToHost`:
the clock, the start of the current turn, the (adjustable) frame interval,
the paint request flag, and the optional `isInputPending` probe whose
argument is the `includeContinuous` option. -/

structure YieldEnv where
  currentTime : Int
  startTime : Int
  frameInterval : Int
  needsPaint : Bool
  isInputPending : Option (Bool → Bool)

def shouldYieldToHost (e : YieldEnv) : Bool :=
  let timeElapsed := e.currentTime - e.startTime
  if timeElapsed < e.frameInterval then
    -- The main thread has only been blocked for a really short amount of
    -- time. Do not yield yet.
    false
  else
    if enableIsInputPending then
      if e.needsPaint then
        -- There is a pending paint (signaled by `requestPaint`). Yield now.
        true
      else if timeElapsed < continuousYieldMs then
        -- Only yield if there is a pending discrete input.
        match e.isInputPending with
        | some probe => probe false
        | none => true
      else if timeElapsed < maxYieldMs then
        -- Yield if there is either a pending discrete or continuous input.
        match e.isInputPending with
        | some probe => probe enableIsInputPendingContinuous
        | none => true
      else
        -- We have blocked the thread for a long time. Yield now.
        true
    else
      -- `isInputPending` is not available. Yield now.
      true

/-- The determinism scenario through the class update queue: the pending
run `A@1, B@2, C@1, D@2` as `ReplaceState` updater functions. -/
def classPendingABCD : List (ClassUpdate String) :=
  [mkClassUpdate 1 "A", mkClassUpdate 2 "B", mkClassUpdate 1 "C", mkClassUpdate 2 "D"]

/-- First class-queue pass, draining at lane 1 only. -/
def classPass1 : ProcessUQResult String :=
  processUpdateQueue stringAssign 1 NoLanes (some "") NoLanes
    { baseState := some "", firstBaseUpdate := [], sharedPending := classPendingABCD } []

/-- Second class-queue pass, at lane 2, applied to the carried queue. -/
def classPass2 : ProcessUQResult String :=
  processUpdateQueue stringAssign 2 NoLanes classPass1.memoizedState NoLanes
    { baseState := classPass1.baseState, firstBaseUpdate := classPass1.firstBaseUpdate,
      sharedPending := [] } []

/-- Observation: the invocation log after one loop iteration, whatever the
iteration outcome. -/
def iterInvoked (env : WorkLoopEnv) (s : SchedulerSt) : List (Nat × Bool) :=
  match workLoopIter env s with
  | .ret (.ok (_, s2)) => s2.invoked
  | .ret (.error (_, s2)) => s2.invoked
  | .next s2 => s2.invoked

/-- Observation: whether a finished work loop reported more work. -/
def workLoopRetMore
    (r : Option (Except (String × SchedulerSt) (Bool × SchedulerSt))) : Option Bool :=
  match r with
  | some (.ok (b, _)) => some b
  | _ => none

/-- Observation: the head task expiration time at loop exit. -/
def workLoopHeadExp
    (r : Option (Except (String × SchedulerSt) (Bool × SchedulerSt))) :
    Option (Option Int) :=
  match r with
  | some (.ok (_, s)) => some ((peek s.taskQueue).map Task.expirationTime)
  | _ => none

/-- Observation: the clock at loop exit. -/
def workLoopExitTime
    (r : Option (Except (String × SchedulerSt) (Bool × SchedulerSt))) : Option Int :=
  match r with
  | some (.ok (_, s)) => some s.currentTime
  | _ => none

/-- Observation: the more-work flag and the ordered ids of the callbacks a
finished loop invoked. -/
def workLoopTrace
    (r : Option (Except (String × SchedulerSt) (Bool × SchedulerSt))) :
    Option (Bool × List Nat) :=
  match r with
  | some (.ok (b, s)) => some (b, s.invoked.map Prod.fst)
  | _ => none

/-- An idle scheduler: empty queues, nothing scheduled, nothing running. -/
def initialScheduler (counter : Nat) (time : Int) (priority : Nat) : SchedulerSt :=
  { taskQueue := []
    timerQueue := []
    currentTask := none
    currentPriorityLevel := priority
    currentTime := time
    taskIdCounter := counter
    isSchedulerPaused := false
    isHostCallbackScheduled := false
    isHostTimeoutScheduled := false
    isPerformingWork := false
    hostCallbackRequested := false
    hostTimeoutRequested := none
    invoked := []
    exitReason := none }

/-- A callback that completes immediately. -/
def cbDone : Callback := .mk (fun _ => (.completed, 0))

/-- A callback that throws. -/
def cbThrow : Callback := .mk (fun _ => (.thrown "boom", 0))

/-- A callback that pauses itself by returning a continuation. -/
def cbCont : Callback := .mk (fun _ => (.continuation cbDone, 0))

/-- A host environment with time remaining and no yield request. -/
def quietEnv : WorkLoopEnv := { hasTimeRemaining := true, shouldYield := fun _ => false }

/-- A past-due task whose callback throws. -/
def throwTask : Task :=
  { id := 1, callback := some cbThrow, priorityLevel := 3, startTime := 0,
    expirationTime := 0, sortIndex := 0 }

/-- A scheduler about to flush the throwing task. -/
def throwScheduler : SchedulerSt :=
  { initialScheduler 2 0 3 with taskQueue := [throwTask], isHostCallbackScheduled := true }

/-- A past-due task whose callback pauses itself with a continuation. -/
def contTask : Task :=
  { id := 1, callback := some cbCont, priorityLevel := 3, startTime := 0,
    expirationTime := 0, sortIndex := 0 }

/-- A scheduler holding only the self-pausing task. -/
def contScheduler : SchedulerSt :=
  { initialScheduler 2 0 3 with taskQueue := [contTask] }

/-- The loop state at the first iteration over the self-pausing task. -/
def contIterStart : SchedulerSt :=
  { initialScheduler 2 0 3 with taskQueue := [contTask], currentTask := some contTask }

/-- The state in which the loop hands control back after the self-pausing
task ran: the continuation sits at the head, work remains. -/
def contFinal : SchedulerSt :=
  { initialScheduler 2 0 3 with
      taskQueue := [{ contTask with callback := some cbDone }]
      currentTask := some { contTask with callback := some cbDone }
      invoked := [(1, true)]
      exitReason := some .continuationYield }

/-- C9 witness scenario: an idle scheduler receiving a user-blocking task
and then a normal-priority task at the same time. -/
def c9s0 : SchedulerSt := initialScheduler 1 0 3

def c9r1 : Task × SchedulerSt :=
  unstable_scheduleCallback UserBlockingPriority cbDone none c9s0

def c9s1 : SchedulerSt := { c9r1.2 with currentTime := c9r1.2.currentTime + 0 }

def c9r2 : Task × SchedulerSt :=
  unstable_scheduleCallback NormalPriority cbDone none c9s1

/-! # Theorems -/

theorem isSubsetOfLanes_noLane (set : Lanes) : isSubsetOfLanes set NoLane = true := by
  simp [isSubsetOfLanes, NoLane]

theorem isSubsetOfLanes_zero (set : Lanes) : isSubsetOfLanes set 0 = true := by
  simp [isSubsetOfLanes]

theorem removeLanes_offscreen_one : removeLanes 1 OffscreenLane = 1 := by decide

theorem removeLanes_offscreen_two : removeLanes 2 OffscreenLane = 2 := by decide

theorem removeLanes_offscreen_zero : removeLanes 0 OffscreenLane = 0 := by decide

/-- Every render pass keeps the scenario cell inside its four reachable
configurations. -/
theorem drainInvariant_step (l : Lanes) (st : HookState String String)
    (h : drainInvariant st) : drainInvariant (passAt l st) := by
  rcases h with h | h | h | h <;> subst h <;>
    cases h1 : isSubsetOfLanes l 1 <;> cases h2 : isSubsetOfLanes l 2 <;>
      simp [passAt, updateReducer, updateReducerStep, scenarioStart, S1, S2, SDone,
        drainInvariant, mkHookUpdate, appendReducer, mergeLanes, NoLanes, NoLane,
        removeLanes_offscreen_zero, removeLanes_offscreen_one, removeLanes_offscreen_two,
        h1, h2, isSubsetOfLanes_zero]

theorem drainInvariant_passes (ls : List Lanes) (st : HookState String String)
    (h : drainInvariant st) : drainInvariant (drainPasses ls st) := by
  induction ls generalizing st with
  | nil => exact h
  | cons l ls ih =>
    have hstep := drainInvariant_step l st h
    have : drainPasses (l :: ls) st = drainPasses ls (passAt l st) := by
      simp [drainPasses, passAt]
    rw [this]
    exact ih _ hstep

/-- C1: for an update log with base value `""` holding `A@1, B@2, C@1, D@2`
(append-to-string mutators), draining at render lanes `1` yields value
`"AC"` with persisted base value `"A"` and a carried-over unprocessed list
beginning with `B`; a subsequent pass at render lanes including lane 2
applied to that carried state yields `"ABCD"`; and after any sequence of
passes that drains the queue, the final value is `"ABCD"` — rebased updates
are replayed (applied twice) but never reordered or dropped.  Both the
hooks-module loop (`updateReducer`) and the class-module loop
(`processUpdateQueue`) realize this. -/
theorem c1_partial_drain_determinism :
    (updateReducer appendReducer 1 NoLanes scenarioStart.baseQueue
        { memoizedState := "", baseState := "", baseQueue := [] } = (S1, 2)
      ∧ S1.memoizedState = "AC" ∧ S1.baseState = "A"
      ∧ S1.baseQueue.head? = some (mkHookUpdate 2 "B"))
    ∧ updateReducer appendReducer 2 NoLanes [] S1 = (SDone, NoLanes)
    ∧ SDone.memoizedState = "ABCD"
    ∧ (classPass1.memoizedState = some "AC"
      ∧ classPass1.baseState = some "A"
      ∧ classPass1.firstBaseUpdate.map ClassUpdate.lane = [2, NoLane, 2]
      ∧ classPass2.memoizedState = some "ABCD")
    ∧ (∀ ls : List Lanes, (drainPasses ls scenarioStart).baseQueue = [] →
        (drainPasses ls scenarioStart).memoizedState = "ABCD") := by
  refine ⟨⟨by decide, by decide, by decide, by decide⟩, by decide, by decide,
    ⟨by decide, by rfl, by rfl, by decide⟩, ?_⟩
  intro ls h
  have hinv := drainInvariant_passes ls scenarioStart (Or.inl rfl)
  rcases hinv with hs | hs | hs | hs <;> rw [hs] at h ⊢
  · exact absurd h (by decide)
  · exact absurd h (by decide)
  · exact absurd h (by decide)
  · decide

/-- Witness for C1: draining the scenario at lane 1 and then at lane 2
empties the queue and ends at `"ABCD"`. -/
theorem c1_partial_drain_determinism_witness :
    (drainPasses [1, 2] scenarioStart).baseQueue = [] ∧
      (drainPasses [1, 2] scenarioStart).memoizedState = "ABCD" :=
  ⟨by decide, (c1_partial_drain_determinism.2.2.2.2 [1, 2]) (by decide)⟩

theorem processUpdateRun_append {σ : Type} (assign : Option σ → σ → σ)
    (rl wip : Lanes) (xs ys : List (ClassUpdate σ)) (acc : ClassQueueAcc σ) :
    processUpdateRun assign rl wip (xs ++ ys) acc =
      processUpdateRun assign rl wip ys (processUpdateRun assign rl wip xs acc) := by
  simp [processUpdateRun, List.foldl_append]

/-- Draining the re-entrant batches one splice at a time computes the same
accumulator as walking the flattened list. -/
theorem processUpdateQueueGo_flat {σ : Type} (assign : Option σ → σ → σ)
    (rl wip : Lanes) (batches : List (List (ClassUpdate σ)))
    (h : ∀ b ∈ batches, b ≠ []) (acc : ClassQueueAcc σ) :
    processUpdateQueueGo assign rl wip acc batches =
      processUpdateRun assign rl wip batches.flatten acc := by
  induction batches generalizing acc with
  | nil => simp [processUpdateQueueGo, processUpdateRun]
  | cons b rest ih =>
    have hb : b ≠ [] := h b (by simp)
    have hrest : ∀ x ∈ rest, x ≠ [] := fun x hx => h x (by simp [hx])
    simp [processUpdateQueueGo, List.isEmpty_iff, hb, ih hrest,
      processUpdateRun_append]

/-- C2: updates appended to the owner's shared pending list while
`processUpdateQueue` is draining (the re-entrant batches) are spliced onto
the tail of the walk and processed in the same call — the result equals a
call that had those updates at the tail of the pending list from the start;
and the first read that observes an empty shared pending list ends the
call. -/
theorem c2_reentrant_splice_processed_same_call {σ : Type}
    (assign : Option σ → σ → σ)
    (renderLanes wip : Lanes) (memo : Option σ) (lanes0 : Lanes)
    (queue : ClassQueue σ) (batches : List (List (ClassUpdate σ)))
    (h1 : queue.firstBaseUpdate ++ queue.sharedPending ≠ [])
    (h2 : ∀ b ∈ batches, b ≠ []) :
    processUpdateQueue assign renderLanes wip memo lanes0 queue batches =
      processUpdateQueue assign renderLanes wip memo lanes0
        { queue with sharedPending := queue.sharedPending ++ batches.flatten } []
    ∧ ∀ rest, processUpdateQueue assign renderLanes wip memo lanes0 queue ([] :: rest) =
        processUpdateQueue assign renderLanes wip memo lanes0 queue [] := by
  constructor
  · rcases hq : queue.firstBaseUpdate ++ queue.sharedPending with _ | ⟨first, rest⟩
    · exact absurd hq h1
    · simp only [processUpdateQueue]
      rw [hq]
      have hq2 : queue.firstBaseUpdate ++ (queue.sharedPending ++ batches.flatten) =
          (first :: rest) ++ batches.flatten := by rw [← List.append_assoc, hq]
      rw [hq2]
      simp only [processUpdateQueueGo]
      rw [processUpdateQueueGo_flat assign renderLanes wip batches h2,
        ← processUpdateRun_append]
      rfl
  · intro rest
    rcases hq : queue.firstBaseUpdate ++ queue.sharedPending with _ | ⟨first, tl⟩
    · simp only [processUpdateQueue]
      rw [hq]
    · simp only [processUpdateQueue]
      rw [hq]
      simp [processUpdateQueueGo]

/-- Witness for C2: a queue holding `A@1` whose walk sees one re-entrant
batch `B@1` computes what a single pending run `A@1, B@1` computes. -/
theorem c2_reentrant_splice_witness :
    processUpdateQueue stringAssign 1 NoLanes (some "") NoLanes
      { baseState := some "", firstBaseUpdate := [],
        sharedPending := [mkClassUpdate 1 "A"] } [[mkClassUpdate 1 "B"]] =
    processUpdateQueue stringAssign 1 NoLanes (some "") NoLanes
      { baseState := some "", firstBaseUpdate := [],
        sharedPending := [mkClassUpdate 1 "A"] ++ [[mkClassUpdate 1 "B"]].flatten } [] :=
  (c2_reentrant_splice_processed_same_call stringAssign 1 NoLanes (some "") NoLanes
    { baseState := some "", firstBaseUpdate := [],
      sharedPending := [mkClassUpdate 1 "A"] } [[mkClassUpdate 1 "B"]]
    (by simp) (by simp)).1

theorem renderAgainGo_always {C : Type} (body : Nat → C × Bool)
    (h : ∀ k, (body k).2 = true) :
    ∀ n j, RE_RENDER_LIMIT - j ≤ n → j ≤ RE_RENDER_LIMIT →
      renderWithHooksAgainGo body j =
        { children := .error "Too many re-renders. React limits the number of renders to prevent an infinite loop."
          numberOfReRenders := RE_RENDER_LIMIT } := by
  intro n
  induction n with
  | zero =>
    intro j h1 h2
    have hj : j = RE_RENDER_LIMIT := by omega
    subst hj
    simp [renderWithHooksAgainGo]
  | succ n ih =>
    intro j h1 h2
    by_cases hj : j ≥ RE_RENDER_LIMIT
    · have hj2 : j = RE_RENDER_LIMIT := by omega
      subst hj2
      simp [renderWithHooksAgainGo]
    · rw [renderWithHooksAgainGo]
      simp only [hj, if_false, h j]
      exact ih (j + 1) (by omega) (by omega)

theorem renderAgainGo_stops {C : Type} (body : Nat → C × Bool) :
    ∀ n j k, RE_RENDER_LIMIT - j ≤ n → j ≤ k → k < RE_RENDER_LIMIT →
      (body k).2 = false →
      ∃ c, (renderWithHooksAgainGo body j).children = .ok c := by
  intro n
  induction n with
  | zero =>
    intro j k h1 h2 h3 h4
    omega
  | succ n ih =>
    intro j k h1 h2 h3 h4
    have hj : ¬ j ≥ RE_RENDER_LIMIT := by omega
    rw [renderWithHooksAgainGo]
    simp only [hj, if_false]
    by_cases hs : (body j).2 = true
    · simp only [hs, if_true]
      have hjk : j ≠ k := by
        intro hh
        rw [hh] at hs
        rw [hs] at h4
        cases h4
      exact ih (j + 1) k (by omega) (by omega) h3 h4
    · simp only [Bool.not_eq_true] at hs
      simp [hs]

/-- C3: a render-unit body that schedules a render-phase update on every
invocation makes `renderWithHooksAgain` throw the "Too many re-renders"
error after exactly 25 re-render attempts (`numberOfReRenders` ends at the
25-iteration bound, the body having been invoked 25 times); a body that
stops scheduling within 25 attempts always returns children and never hits
that error. -/
theorem c3_too_many_rerenders {C : Type} (body : Nat → C × Bool) :
    RE_RENDER_LIMIT = 25
    ∧ ((∀ k, (body k).2 = true) →
        renderWithHooksAgain body =
          { children := .error "Too many re-renders. React limits the number of renders to prevent an infinite loop."
            numberOfReRenders := 25 })
    ∧ (∀ k, k < RE_RENDER_LIMIT → (body k).2 = false →
        ∃ c, (renderWithHooksAgain body).children = .ok c) := by
  refine ⟨rfl, ?_, ?_⟩
  · intro h
    exact renderAgainGo_always body h RE_RENDER_LIMIT 0 (by omega) (by omega)
  · intro k hk hfalse
    exact renderAgainGo_stops body RE_RENDER_LIMIT 0 k (by omega) (by omega) hk hfalse

/-- Witness for C3: a body that always self-mutates errors out with the
counter at 25; a body that never self-mutates returns children. -/
theorem c3_too_many_rerenders_witness :
    renderWithHooksAgain (fun _ => ((0 : Nat), true)) =
      { children := .error "Too many re-renders. React limits the number of renders to prevent an infinite loop."
        numberOfReRenders := 25 }
    ∧ ∃ c, (renderWithHooksAgain (fun _ => ((0 : Nat), false))).children = .ok c :=
  ⟨(c3_too_many_rerenders (fun _ => ((0 : Nat), true))).2.1 (fun _ => rfl),
    (c3_too_many_rerenders (fun _ => ((0 : Nat), false))).2.2 0 (by decide) rfl⟩

theorem hook_eta {S Q : Type} (h : Hook S Q) :
    ({ memoizedState := h.memoizedState, baseState := h.baseState,
       baseQueue := h.baseQueue, queue := h.queue } : Hook S Q) = h := rfl

theorem take_append_of_getElem {S Q : Type} (c : List (Hook S Q)) (k : Nat)
    (hk : Hook S Q) (h : getElem? c k = some hk) :
    c.take k ++ [hk] = c.take (k + 1) := by
  rw [List.take_succ]
  simp [h]

theorem length_take_of_getElem {S Q : Type} (c : List (Hook S Q)) (k : Nat)
    (hk : Hook S Q) (h : getElem? c k = some hk) :
    (c.take k).length = k := by
  have := (List.getElem?_eq_some_iff.mp h).1
  simp [List.length_take]
  omega

theorem hookStep {S Q : Type} (c : List (Hook S Q)) (k : Nat) (hk : Hook S Q)
    (h : getElem? c k = some hk) :
    updateWorkInProgressHook (passState c k) =
      .ok (hk, passState c (k + 1)) := by
  cases k with
  | zero =>
    simp only [passState, updateWorkInProgressHook, if_pos rfl, List.take_zero,
      List.getElem?_nil, h]
    simp [← take_append_of_getElem c 0 hk h, hook_eta]
  | succ k =>
    have hwipnil : getElem? (c.take (k + 1)) (k + 1) = none := by
      apply List.getElem?_eq_none
      simp [List.length_take]
    simp only [passState, updateWorkInProgressHook, Nat.succ_ne_zero, if_false,
      Nat.succ_sub_one, h, hwipnil]
    simp [← take_append_of_getElem c (k + 1) hk h, hook_eta,
      length_take_of_getElem c (k + 1) hk h]

theorem hookStepPastEnd {S Q : Type} (c : List (Hook S Q)) :
    updateWorkInProgressHook (passState c c.length) =
      .error "Rendered more hooks than during the previous render." := by
  have hnone : getElem? c c.length = none := List.getElem?_eq_none (Nat.le_refl _)
  cases hc : c.length with
  | zero =>
    simp only [passState, updateWorkInProgressHook, if_pos rfl, List.take_zero,
      List.getElem?_nil]
    rw [hc] at hnone
    simp [hnone]
  | succ m =>
    have hwipnil : getElem? (c.take (m + 1)) (m + 1) = none := by
      apply List.getElem?_eq_none
      simp [List.length_take]
    rw [hc] at hnone
    simp only [passState, updateWorkInProgressHook, Nat.succ_ne_zero, if_false,
      Nat.succ_sub_one, hnone, hwipnil, hc]
    simp

theorem runHookCalls_ok {S Q : Type} (c : List (Hook S Q)) :
    ∀ n k, k + n ≤ c.length →
      runHookCalls n (passState c k) = .ok (passState c (k + n)) := by
  intro n
  induction n with
  | zero => intro k h; simp [runHookCalls]
  | succ n ih =>
    intro k h
    have hk : k < c.length := by omega
    obtain ⟨hkel, hhk⟩ : ∃ hkel, getElem? c k = some hkel := by
      cases hgk : getElem? c k with
      | none =>
        have := List.getElem?_eq_none_iff.mp hgk
        omega
      | some x => exact ⟨x, rfl⟩
    rw [runHookCalls, hookStep c k hkel hhk]
    show runHookCalls n (passState c (k + 1)) = Except.ok (passState c (k + (n + 1)))
    have harith : k + 1 + n = k + (n + 1) := by omega
    rw [ih (k + 1) (by omega), harith]

theorem runHookCalls_past {S Q : Type} (c : List (Hook S Q)) :
    ∀ n k, k ≤ c.length → c.length < k + n →
      runHookCalls n (passState c k) =
        .error "Rendered more hooks than during the previous render." := by
  intro n
  induction n with
  | zero => intro k h1 h2; omega
  | succ n ih =>
    intro k h1 h2
    by_cases hk : k = c.length
    · subst hk
      rw [runHookCalls, hookStepPastEnd c]
    · have hklt : k < c.length := by omega
      obtain ⟨hkel, hhk⟩ : ∃ hkel, getElem? c k = some hkel := by
        cases hgk : getElem? c k with
        | none =>
          have := List.getElem?_eq_none_iff.mp hgk
          omega
        | some x => exact ⟨x, rfl⟩
      rw [runHookCalls, hookStep c k hkel hhk]
      show runHookCalls n (passState c (k + 1)) = _
      exact ih (k + 1) (by omega) (by omega)

theorem didRenderTooFewHooks_passState {S Q : Type} (c : List (Hook S Q))
    (n : Nat) (h1 : 1 ≤ n) :
    didRenderTooFewHooks (passState c n) = decide (n < c.length) := by
  have hn : ¬ n = 0 := by omega
  simp only [didRenderTooFewHooks, passState, if_neg hn]
  have : n - 1 + 1 = n := by omega
  rw [this]

/-- C4 (amended): in an update-mode invocation over a previous chain of
`L` cells, calling `1 ≤ n < L` stateful primitives throws the "Rendered
fewer hooks than expected" error at the end of the invocation; calling
`n > L` primitives throws "Rendered more hooks than during the previous
render" at the first call past the end of the chain (call `L + 1`);
calling exactly `L` primitives (or zero — the undetected case forcing this
amendment) finishes without error.  Neither fault is silently recovered. -/
theorem c4_hook_order_mismatch_detected {S Q : Type} (curChain : List (Hook S Q)) (n : Nat) :
    (1 ≤ n → n < curChain.length →
      updateRenderPass curChain n =
        .error "Rendered fewer hooks than expected. This may be caused by an accidental early return statement.")
    ∧ (curChain.length < n →
      updateRenderPass curChain n =
        .error "Rendered more hooks than during the previous render.")
    ∧ (n = curChain.length →
      updateRenderPass curChain n = .ok (passState curChain curChain.length))
    ∧ (n = 0 → updateRenderPass curChain n = .ok (passState curChain 0))
    ∧ runHookCalls curChain.length (updatePassStart curChain) =
        .ok (passState curChain curChain.length)
    ∧ runHookCalls (curChain.length + 1) (updatePassStart curChain) =
        .error "Rendered more hooks than during the previous render." := by
  have hstart : updatePassStart curChain = passState curChain 0 := rfl
  refine ⟨?_, ?_, ?_, ?_, ?_, ?_⟩
  · intro h1 h2
    rw [updateRenderPass, hstart, runHookCalls_ok curChain n 0 (by omega)]
    simp only [Nat.zero_add]
    simp only [finishRenderingHooks, didRenderTooFewHooks_passState curChain n h1]
    rw [if_pos (by simpa using h2)]
  · intro h
    rw [updateRenderPass, hstart, runHookCalls_past curChain n 0 (by omega) (by omega)]
  · intro h
    rw [updateRenderPass, hstart, h, runHookCalls_ok curChain curChain.length 0 (by omega)]
    simp only [Nat.zero_add]
    by_cases hz : curChain.length = 0
    · rw [hz]
      simp [finishRenderingHooks, didRenderTooFewHooks, passState, hz]
    · simp only [finishRenderingHooks,
        didRenderTooFewHooks_passState curChain curChain.length (by omega)]
      simp
  · intro h
    rw [updateRenderPass, hstart, h, runHookCalls_ok curChain 0 0 (by omega)]
    simp [finishRenderingHooks, didRenderTooFewHooks, passState]
  · rw [hstart, runHookCalls_ok curChain curChain.length 0 (by omega)]
    simp
  · rw [hstart, runHookCalls_past curChain (curChain.length + 1) 0 (by omega) (by omega)]


/-- Counterexample for C4 as stated: an update-mode invocation that calls
zero stateful primitives, over a previous chain of two cells, finishes
without any error although fewer primitives were called than on the
previous invocation and unvisited cells remain. -/
theorem c4_zero_calls_counterexample :
    updateRenderPass twoHookChain 0 = .ok (updatePassStart twoHookChain)
    ∧ 0 < twoHookChain.length :=
  ⟨rfl, by decide⟩

/-- Witness for C4 (amended): over a two-cell chain, one call errors with
the fewer-hooks message, three calls error with the more-hooks message, and
exactly two calls finish cleanly. -/
theorem c4_hook_order_mismatch_witness :
    updateRenderPass twoHookChain 1 =
      .error "Rendered fewer hooks than expected. This may be caused by an accidental early return statement."
    ∧ updateRenderPass twoHookChain 3 =
      .error "Rendered more hooks than during the previous render."
    ∧ updateRenderPass twoHookChain 2 = .ok (passState twoHookChain 2) :=
  ⟨(c4_hook_order_mismatch_detected twoHookChain 1).1 (by decide) (by decide),
   (c4_hook_order_mismatch_detected twoHookChain 3).2.1 (by decide),
   (c4_hook_order_mismatch_detected twoHookChain 2).2.2.1 (by decide)⟩

/-- C5: a setter call outside the render phase, when the owner has no
outstanding work (`fiber.lanes` and the alternate lanes are `NoLanes`),
eagerly computes the next state with the last rendered reducer; when the
result is value-equal to the last rendered state the update is recorded via
the eager-bailout enqueue and nothing is scheduled, otherwise the update
(carrying the eager state) is enqueued and a re-evaluation is scheduled at
the computed lane. -/
theorem c5_eager_bailout {S A : Type} [DecidableEq S]
    (fiber : FiberCtx) (queue : HookQueueCtx S A) (action : A)
    (r : S → A → Except String S) (ns : S)
    (hrender : fiber.isRendering = false)
    (hlanes : fiber.lanes = NoLanes)
    (halt : fiber.alternateLanes = none ∨ fiber.alternateLanes = some NoLanes)
    (hred : queue.lastRenderedReducer = some r)
    (hok : r queue.lastRenderedState action = .ok ns)
    (hroot : fiber.rootAttached = true) :
    (ns = queue.lastRenderedState →
      dispatchSetState fiber queue action =
        .eagerBailout { lane := fiber.requestedLane, action := action,
                        hasEagerState := true, eagerState := some ns })
    ∧ (ns ≠ queue.lastRenderedState →
      dispatchSetState fiber queue action =
        .enqueued { lane := fiber.requestedLane, action := action,
                    hasEagerState := true, eagerState := some ns } true) := by
  constructor
  · intro heq
    rcases halt with h | h <;>
      simp [dispatchSetState, hrender, hlanes, h, hred, hok, heq, hroot, NoLanes]
  · intro hne
    rcases halt with h | h <;>
      simp [dispatchSetState, hrender, hlanes, h, hred, hok, hne, hroot, NoLanes]

/-- Witness for C5: a counter cell at value `0` whose setter is called with
`0` (equal: recorded, nothing scheduled) and with `1` (different:
scheduled). -/
theorem c5_eager_bailout_witness :
    dispatchSetState
      { lanes := NoLanes, alternateLanes := none, isRendering := false,
        rootAttached := true, requestedLane := 1 }
      ({ lastRenderedReducer := some (fun s a => .ok (basicStateReducer s a)),
         lastRenderedState := 0 } : HookQueueCtx Nat (BasicStateAction Nat))
      (.value 0) =
      .eagerBailout { lane := 1, action := .value 0,
                      hasEagerState := true, eagerState := some 0 }
    ∧ dispatchSetState
      { lanes := NoLanes, alternateLanes := none, isRendering := false,
        rootAttached := true, requestedLane := 1 }
      ({ lastRenderedReducer := some (fun s a => .ok (basicStateReducer s a)),
         lastRenderedState := 0 } : HookQueueCtx Nat (BasicStateAction Nat))
      (.value 1) =
      .enqueued { lane := 1, action := .value 1,
                  hasEagerState := true, eagerState := some 1 } true :=
  ⟨(c5_eager_bailout _ _ _ _ 0 rfl rfl (Or.inl rfl) rfl rfl rfl).1 rfl,
   (c5_eager_bailout _ _ _ _ 1 rfl rfl (Or.inl rfl) rfl rfl rfl).2 (by decide)⟩

/-- C10: when the eagerly invoked reducer throws, the exception is
suppressed at dispatch time — the setter completes with the update enqueued
without an eager state and a re-evaluation scheduled; a later render pass
over such an update invokes the reducer again (where the error would
resurface during render). -/
theorem c10_eager_reducer_error_suppressed {S A : Type} [DecidableEq S]
    (fiber : FiberCtx) (queue : HookQueueCtx S A) (action : A)
    (r : S → A → Except String S) (msg : String)
    (hrender : fiber.isRendering = false)
    (hlanes : fiber.lanes = NoLanes)
    (halt : fiber.alternateLanes = none ∨ fiber.alternateLanes = some NoLanes)
    (hred : queue.lastRenderedReducer = some r)
    (herr : r queue.lastRenderedState action = .error msg)
    (hroot : fiber.rootAttached = true) :
    dispatchSetState fiber queue action =
      .enqueued { lane := fiber.requestedLane, action := action,
                  hasEagerState := false, eagerState := none } true
    ∧ ∀ (T B : Type) (red : T → B → T) (st : HookState T B) (u : HookUpdate T B),
        u.hasEagerState = false →
        removeLanes u.lane OffscreenLane = u.lane →
        isSubsetOfLanes TotalLanesMask u.lane = true →
        (updateReducer red TotalLanesMask NoLanes [u]
            { memoizedState := st.memoizedState, baseState := st.baseState,
              baseQueue := [] }).1.memoizedState = red st.baseState u.action := by
  constructor
  · rcases halt with h | h <;>
      simp [dispatchSetState, hrender, hlanes, h, hred, herr, hroot, NoLanes]
  · intro T B red st u hu hlane hsub
    simp [updateReducer, updateReducerStep, hu, hlane, hsub]

/-- Witness for C10: a reducer that always throws leads to an enqueued
update without an eager state; a pure reducer on the same shaped update is
re-invoked during the pass. -/
theorem c10_eager_reducer_error_witness :
    dispatchSetState
      { lanes := NoLanes, alternateLanes := none, isRendering := false,
        rootAttached := true, requestedLane := 1 }
      ({ lastRenderedReducer := some (fun _ _ => .error "boom"),
         lastRenderedState := 0 } : HookQueueCtx Nat Nat) 7 =
      .enqueued { lane := 1, action := 7, hasEagerState := false,
                  eagerState := none } true
    ∧ (updateReducer (fun (s a : Nat) => s + a) TotalLanesMask NoLanes
        [{ lane := 1, action := 7, hasEagerState := false, eagerState := none }]
        { memoizedState := 0, baseState := 0, baseQueue := [] }).1.memoizedState = 0 + 7 :=
  ⟨(c10_eager_reducer_error_suppressed _ _ _ _ "boom" rfl rfl (Or.inl rfl) rfl rfl rfl).1,
   (c10_eager_reducer_error_suppressed
      { lanes := NoLanes, alternateLanes := none, isRendering := false,
        rootAttached := true, requestedLane := 1 }
      ({ lastRenderedReducer := some (fun _ _ => .error "boom"),
         lastRenderedState := 0 } : HookQueueCtx Nat Nat) 7 _ "boom"
      rfl rfl (Or.inl rfl) rfl rfl rfl).2 Nat Nat (fun s a => s + a)
      { memoizedState := 0, baseState := 0, baseQueue := [] }
      { lane := 1, action := 7, hasEagerState := false, eagerState := none }
      rfl (by decide) (by decide)⟩

/-- C6: `shouldYieldToHost` returns `false` unconditionally while less than
`frameInterval` ms have elapsed in the turn; once it has elapsed it returns
`true` when a paint was requested, consults the discrete input probe below
the continuous-input threshold, consults the probe including continuous
input between that threshold and the hard ceiling, returns `true`
unconditionally beyond the ceiling, and returns `true` whenever the host
provides no input-pending probe. -/
theorem c6_should_yield_discipline (e : YieldEnv) :
    (e.currentTime - e.startTime < e.frameInterval → shouldYieldToHost e = false)
    ∧ (e.frameInterval ≤ e.currentTime - e.startTime → e.needsPaint = true →
        shouldYieldToHost e = true)
    ∧ (∀ probe, e.isInputPending = some probe → e.needsPaint = false →
        e.frameInterval ≤ e.currentTime - e.startTime →
        e.currentTime - e.startTime < continuousYieldMs →
        shouldYieldToHost e = probe false)
    ∧ (∀ probe, e.isInputPending = some probe → e.needsPaint = false →
        e.frameInterval ≤ e.currentTime - e.startTime →
        continuousYieldMs ≤ e.currentTime - e.startTime →
        e.currentTime - e.startTime < maxYieldMs →
        shouldYieldToHost e = probe true)
    ∧ (e.frameInterval ≤ e.currentTime - e.startTime →
        maxYieldMs ≤ e.currentTime - e.startTime →
        shouldYieldToHost e = true)
    ∧ (e.isInputPending = none → e.frameInterval ≤ e.currentTime - e.startTime →
        shouldYieldToHost e = true) := by
  refine ⟨?_, ?_, ?_, ?_, ?_, ?_⟩
  · intro h
    simp [shouldYieldToHost, h]
  · intro h hp
    rw [shouldYieldToHost]
    simp [enableIsInputPending, hp, not_lt.mpr h]
  · intro probe hprobe hp h1 h2
    rw [shouldYieldToHost]
    simp [enableIsInputPending, hprobe, hp, not_lt.mpr h1, h2]
  · intro probe hprobe hp h1 h2 h3
    rw [shouldYieldToHost]
    simp [enableIsInputPending, enableIsInputPendingContinuous, hprobe, hp,
      not_lt.mpr h1, not_lt.mpr h2, h3]
  · intro h1 h2
    rw [shouldYieldToHost]
    have hc : ¬ e.currentTime - e.startTime < continuousYieldMs := by
      simp [continuousYieldMs, maxYieldMs] at *
      omega
    simp [enableIsInputPending, not_lt.mpr h1, not_lt.mpr h2, hc]
  · intro hnone h1
    rw [shouldYieldToHost]
    simp [enableIsInputPending, hnone, not_lt.mpr h1]

/-- Witness for C6: with a 5 ms frame interval — at 3 ms no yield; at 10 ms
a requested paint yields; at 10 ms the discrete probe answer is returned;
at 100 ms the probe is consulted with continuous input included; at 400 ms
it yields regardless; with no probe it yields once past the interval. -/
theorem c6_should_yield_discipline_witness :
    shouldYieldToHost { currentTime := 3, startTime := 0, frameInterval := frameYieldMs,
                        needsPaint := false, isInputPending := some (fun b => b) } = false
    ∧ shouldYieldToHost { currentTime := 10, startTime := 0, frameInterval := frameYieldMs,
                          needsPaint := true, isInputPending := some (fun b => b) } = true
    ∧ shouldYieldToHost { currentTime := 10, startTime := 0, frameInterval := frameYieldMs,
                          needsPaint := false, isInputPending := some (fun b => b) } = false
    ∧ shouldYieldToHost { currentTime := 100, startTime := 0, frameInterval := frameYieldMs,
                          needsPaint := false, isInputPending := some (fun b => b) } = true
    ∧ shouldYieldToHost { currentTime := 400, startTime := 0, frameInterval := frameYieldMs,
                          needsPaint := false, isInputPending := some (fun b => b) } = true
    ∧ shouldYieldToHost { currentTime := 10, startTime := 0, frameInterval := frameYieldMs,
                          needsPaint := false, isInputPending := none } = true :=
  ⟨(c6_should_yield_discipline _).1 (by decide),
   (c6_should_yield_discipline _).2.1 (by decide) rfl,
   (c6_should_yield_discipline _).2.2.1 (fun b => b) rfl rfl (by decide) (by decide),
   (c6_should_yield_discipline _).2.2.2.1 (fun b => b) rfl rfl (by decide) (by decide) (by decide),
   (c6_should_yield_discipline _).2.2.2.2.1 (by decide) (by decide),
   (c6_should_yield_discipline _).2.2.2.2.2 rfl (by decide)⟩

theorem flushWorkPrologue_priority (s : SchedulerSt) :
    (flushWorkPrologue s).currentPriorityLevel = s.currentPriorityLevel := by
  simp only [flushWorkPrologue]
  split <;> rfl

/-- C8: whatever happens inside `flushWork` — the work loop finishing or a
task callback throwing — the `finally` cleanup always runs: `currentTask`
is reset to `null`, `currentPriorityLevel` is restored to its value before
the call, and `isPerformingWork` is cleared; a thrown error propagates to
the caller unchanged rather than being swallowed. -/
theorem c8_flushWork_cleanup (env : WorkLoopEnv) (initialTime : Int) (fuel : Nat)
    (s : SchedulerSt) :
    (∀ b st, flushWork env initialTime fuel s = some (.ok (b, st)) →
        st.currentTask = none ∧ st.currentPriorityLevel = s.currentPriorityLevel
          ∧ st.isPerformingWork = false)
    ∧ (∀ e st, flushWork env initialTime fuel s = some (.error (e, st)) →
        (st.currentTask = none ∧ st.currentPriorityLevel = s.currentPriorityLevel
          ∧ st.isPerformingWork = false)
        ∧ ∃ st0, workLoop env initialTime fuel (flushWorkPrologue s) =
            some (.error (e, st0))) := by
  constructor
  · intro b st h
    rcases hw : workLoop env initialTime fuel (flushWorkPrologue s) with _ | r
    · rw [flushWork, hw] at h
      cases h
    · rcases r with ⟨e0, st0⟩ | ⟨b0, st0⟩
      · rw [flushWork, hw] at h
        cases h
      · rw [flushWork, hw] at h
        injection h with h
        injection h with h
        injection h with hb hst
        subst hst
        refine ⟨rfl, ?_, rfl⟩
        exact flushWorkPrologue_priority s
  · intro e st h
    rcases hw : workLoop env initialTime fuel (flushWorkPrologue s) with _ | r
    · rw [flushWork, hw] at h
      cases h
    · rcases r with ⟨e0, st0⟩ | ⟨b0, st0⟩
      · rw [flushWork, hw] at h
        injection h with h
        injection h with h
        injection h with he hst
        subst hst
        subst he
        exact ⟨⟨rfl, flushWorkPrologue_priority s, rfl⟩, ⟨st0, rfl⟩⟩
      · rw [flushWork, hw] at h
        cases h


/-- Witness for C8: flushing a queue whose only task throws propagates the
error, leaves the nulled task behind, and resets the bookkeeping. -/
theorem c8_flushWork_cleanup_witness :
    flushWork quietEnv 0 3 throwScheduler =
      some (.error ("boom",
        { initialScheduler 2 0 3 with
            taskQueue := [{ throwTask with callback := none }]
            invoked := [(1, true)] }))
    ∧ ({ initialScheduler 2 0 3 with
          taskQueue := [{ throwTask with callback := none }]
          invoked := [(1, true)] } : SchedulerSt).currentTask = none
    ∧ ({ initialScheduler 2 0 3 with
          taskQueue := [{ throwTask with callback := none }]
          invoked := [(1, true)] } : SchedulerSt).currentPriorityLevel =
        throwScheduler.currentPriorityLevel
    ∧ ({ initialScheduler 2 0 3 with
          taskQueue := [{ throwTask with callback := none }]
          invoked := [(1, true)] } : SchedulerSt).isPerformingWork = false :=
  ⟨rfl,
    ((c8_flushWork_cleanup quietEnv 0 3 throwScheduler).2 "boom" _ rfl).1.1,
    ((c8_flushWork_cleanup quietEnv 0 3 throwScheduler).2 "boom" _ rfl).1.2.1,
    ((c8_flushWork_cleanup quietEnv 0 3 throwScheduler).2 "boom" _ rfl).1.2.2⟩

theorem workLoopIter_more_work (env : WorkLoopEnv) (s s2 : SchedulerSt)
    (h : workLoopIter env s = .ret (.ok (true, s2))) :
    s2.exitReason = some .breakYield ∨ s2.exitReason = some .continuationYield := by
  rcases hc : s.currentTask with _ | t
  · rw [workLoopIter, hc] at h
    rcases hp : peek s.timerQueue with _ | ft <;> rw [hp] at h <;> cases h
  · rw [workLoopIter, hc] at h
    simp only [enableSchedulerDebugging, Bool.false_and, Bool.false_eq_true,
      if_false] at h
    by_cases hbrk :
        (decide (t.expirationTime > s.currentTime) &&
          (!env.hasTimeRemaining || env.shouldYield s.currentTime)) = true
    · rw [if_pos hbrk] at h
      injection h with h
      injection h with h
      injection h with hb hs
      subst hs
      exact Or.inl rfl
    · rw [if_neg hbrk] at h
      rcases hcb : t.callback with _ | cb <;> simp only [hcb] at h
      · cases h
      · rcases hr : cb.run (decide (t.expirationTime ≤ s.currentTime)) with ⟨out, el⟩
        rw [hr] at h
        rcases out with _ | c | e
        · cases h
        · injection h with h
          injection h with h
          injection h with hb hs
          subst hs
          exact Or.inr rfl
        · cases h

theorem workLoopIter_breakYield (env : WorkLoopEnv) (s s2 : SchedulerSt)
    (h : workLoopIter env s = .ret (.ok (true, s2)))
    (hbr : s2.exitReason = some .breakYield) :
    ∃ t, s.currentTask = some t ∧ t.expirationTime > s.currentTime ∧
      (env.hasTimeRemaining = false ∨ env.shouldYield s.currentTime = true) := by
  rcases hc : s.currentTask with _ | t
  · rw [workLoopIter, hc] at h
    rcases hp : peek s.timerQueue with _ | ft <;> rw [hp] at h <;> cases h
  · rw [workLoopIter, hc] at h
    simp only [enableSchedulerDebugging, Bool.false_and, Bool.false_eq_true,
      if_false] at h
    by_cases hbrk :
        (decide (t.expirationTime > s.currentTime) &&
          (!env.hasTimeRemaining || env.shouldYield s.currentTime)) = true
    · refine ⟨t, rfl, ?_, ?_⟩
      · have := (Bool.and_eq_true _ _).mp hbrk |>.1
        exact of_decide_eq_true this
      · have := (Bool.and_eq_true _ _).mp hbrk |>.2
        rcases Bool.or_eq_true _ _ |>.mp this with h1 | h1
        · left
          simpa using h1
        · right
          exact h1
    · rw [if_neg hbrk] at h
      rcases hcb : t.callback with _ | cb <;> simp only [hcb] at h
      · cases h
      · rcases hr : cb.run (decide (t.expirationTime ≤ s.currentTime)) with ⟨out, el⟩
        rw [hr] at h
        rcases out with _ | c | e
        · cases h
        · injection h with h
          injection h with h
          injection h with hb hs
          subst hs
          simp at hbr
        · cases h

theorem workLoopIter_pastDue_runs (env : WorkLoopEnv) (s : SchedulerSt)
    (t : Task) (cb : Callback)
    (hc : s.currentTask = some t) (hdue : t.expirationTime ≤ s.currentTime)
    (hcb : t.callback = some cb) :
    iterInvoked env s = s.invoked ++ [(t.id, true)] := by
  have hgt : decide (t.expirationTime > s.currentTime) = false :=
    decide_eq_false_iff_not.mpr (not_lt.mpr hdue)
  have hle : decide (t.expirationTime ≤ s.currentTime) = true :=
    decide_eq_true_eq.mpr hdue
  rw [iterInvoked, workLoopIter, hc]
  simp only [enableSchedulerDebugging, Bool.false_and, Bool.false_eq_true,
    if_false, hgt, Bool.false_and, hcb, hle]
  rcases hr : cb.run true with ⟨out, el⟩
  rcases out with _ | c | e <;> simp

theorem workLoopGo_more_work (env : WorkLoopEnv) :
    ∀ fuel s b s2, workLoopGo env fuel s = some (.ok (b, s2)) → b = true →
      s2.exitReason = some .breakYield ∨ s2.exitReason = some .continuationYield := by
  intro fuel
  induction fuel with
  | zero => intro s b s2 h _; cases h
  | succ fuel ih =>
    intro s b s2 h hb
    subst hb
    rcases hiter : workLoopIter env s with r | s3
    · rw [workLoopGo, hiter] at h
      injection h with h
      subst h
      exact workLoopIter_more_work env s s2 hiter
    · rw [workLoopGo, hiter] at h
      exact ih s3 true s2 h rfl


/-- C7 (amended): the work loop exits with work remaining only through the
cooperative break or through a callback returning a continuation; the break
happens only when the head task is not yet due and either no turn time
remains or the host requests a yield; and a past-due head task always has
its callback invoked in the current turn, receiving `true` as its
overdue flag. -/
theorem c7_pastdue_execution_and_exits (env : WorkLoopEnv) :
    (∀ fuel s b s2, workLoopGo env fuel s = some (.ok (b, s2)) → b = true →
        s2.exitReason = some .breakYield ∨ s2.exitReason = some .continuationYield)
    ∧ (∀ s s2, workLoopIter env s = .ret (.ok (true, s2)) →
        s2.exitReason = some .breakYield →
        ∃ t, s.currentTask = some t ∧ t.expirationTime > s.currentTime ∧
          (env.hasTimeRemaining = false ∨ env.shouldYield s.currentTime = true))
    ∧ (∀ s t cb, s.currentTask = some t → t.expirationTime ≤ s.currentTime →
        t.callback = some cb → iterInvoked env s = s.invoked ++ [(t.id, true)]) :=
  ⟨fun fuel s b s2 h hb => workLoopGo_more_work env fuel s b s2 h hb,
   fun s s2 h hbr => workLoopIter_breakYield env s s2 h hbr,
   fun s t cb hc hdue hcb => workLoopIter_pastDue_runs env s t cb hc hdue hcb⟩

/-- Counterexample for C7 as stated: a run over a single past-due task
whose callback returns a continuation exits with work remaining although
the head task is past due, turn time remains, and the host never requested
a yield. -/
theorem c7_continuation_counterexample :
    workLoopRetMore (workLoop quietEnv 0 3 contScheduler) = some true
    ∧ workLoopHeadExp (workLoop quietEnv 0 3 contScheduler) = some (some 0)
    ∧ workLoopExitTime (workLoop quietEnv 0 3 contScheduler) = some 0
    ∧ quietEnv.hasTimeRemaining = true
    ∧ quietEnv.shouldYield 0 = false :=
  ⟨rfl, rfl, rfl, rfl, rfl⟩

/-- Witness for C7 (amended): the continuation run exits with one of the
two sanctioned reasons, and the past-due task was invoked with the overdue
flag. -/
theorem c7_pastdue_execution_witness :
    (contFinal.exitReason = some .breakYield
      ∨ contFinal.exitReason = some .continuationYield)
    ∧ iterInvoked quietEnv contIterStart = contIterStart.invoked ++ [(1, true)] :=
  ⟨(c7_pastdue_execution_and_exits quietEnv).1 3 contIterStart true contFinal rfl rfl,
   (c7_pastdue_execution_and_exits quietEnv).2.2 contIterStart contTask cbCont rfl
     (by decide) rfl⟩

theorem workLoop_two_tasks (x y : Task) (cbx cby : Callback) (t0 : Int)
    (hx : x.callback = some cbx) (hy : y.callback = some cby)
    (htx : ∀ b, ∃ k, cbx.run b = (CBOutcome.completed, k))
    (hty : ∀ b, ∃ k, cby.run b = (CBOutcome.completed, k))
    (s : SchedulerSt)
    (hq : s.taskQueue = [x, y]) (htq : s.timerQueue = []) (hi : s.invoked = []) :
    workLoopTrace (workLoop quietEnv t0 3 s) = some (false, [x.id, y.id]) := by
  obtain ⟨k1, hk1⟩ := htx (decide (x.expirationTime ≤ t0))
  rw [workLoop]
  simp only [hq, htq, advanceTimers, peek, List.head?]
  rw [workLoopGo]
  simp only [workLoopIter, enableSchedulerDebugging, Bool.false_and,
    Bool.false_eq_true, if_false, quietEnv, Bool.not_true, Bool.false_or,
    Bool.and_false, hx, hk1, pop, List.tail, hi]
  obtain ⟨k2, hk2⟩ := hty (decide (y.expirationTime ≤ t0 + (k1 : Int)))
  simp only [advanceTimers, peek, List.head?]
  rw [workLoopGo]
  simp only [workLoopIter, enableSchedulerDebugging, Bool.false_and,
    Bool.false_eq_true, if_false, quietEnv, Bool.not_true, Bool.false_or,
    Bool.and_false, hy, hk2, pop, List.tail]
  rw [workLoopGo]
  simp only [workLoopIter, peek, List.head?, advanceTimers]
  simp [workLoopTrace]

theorem scheduleCallback_immediate (p : Nat) (cb : Callback) (s : SchedulerSt) :
    unstable_scheduleCallback p cb none s =
      ({ id := s.taskIdCounter, callback := some cb, priorityLevel := p,
         startTime := s.currentTime,
         expirationTime := s.currentTime + timeoutForPriority p,
         sortIndex := s.currentTime + timeoutForPriority p },
       if !s.isHostCallbackScheduled && !s.isPerformingWork then
         { s with taskIdCounter := s.taskIdCounter + 1,
                  taskQueue := push s.taskQueue
                    { id := s.taskIdCounter, callback := some cb, priorityLevel := p,
                      startTime := s.currentTime,
                      expirationTime := s.currentTime + timeoutForPriority p,
                      sortIndex := s.currentTime + timeoutForPriority p },
                  isHostCallbackScheduled := true, hostCallbackRequested := true }
       else
         { s with taskIdCounter := s.taskIdCounter + 1,
                  taskQueue := push s.taskQueue
                    { id := s.taskIdCounter, callback := some cb, priorityLevel := p,
                      startTime := s.currentTime,
                      expirationTime := s.currentTime + timeoutForPriority p,
                      sortIndex := s.currentTime + timeoutForPriority p } }) := by
  rw [unstable_scheduleCallback]
  simp only [lt_irrefl, if_false, gt_iff_lt]
  split <;> rfl

/-- C9: for two non-delayed tasks accepted by an idle scheduler, an
earlier `expirationTime` places a task ahead in the ready queue and it is
executed first regardless of scheduling order; two tasks of equal priority
scheduled at the same time tie on the sort key and run in scheduling
order, the tie broken by the monotonically increasing task id. -/
theorem c9_scheduler_ordering (s0 : SchedulerSt) (p1 p2 : Nat) (cb1 cb2 : Callback) (d : Int)
    (ta : Task) (s1raw : SchedulerSt) (tb : Task) (s2 : SchedulerSt)
    (hq : s0.taskQueue = []) (htq : s0.timerQueue = []) (hinv : s0.invoked = [])
    (hics : s0.isHostCallbackScheduled = false) (hipw : s0.isPerformingWork = false)
    (ht1 : ∀ b, ∃ k, cb1.run b = (CBOutcome.completed, k))
    (ht2 : ∀ b, ∃ k, cb2.run b = (CBOutcome.completed, k))
    (hra : unstable_scheduleCallback p1 cb1 none s0 = (ta, s1raw))
    (hrb : unstable_scheduleCallback p2 cb2 none
      { s1raw with currentTime := s1raw.currentTime + d } = (tb, s2)) :
    (ta.expirationTime < tb.expirationTime →
        s2.taskQueue = [ta, tb]
        ∧ workLoopTrace (workLoop quietEnv s2.currentTime 3 s2) =
            some (false, [ta.id, tb.id]))
    ∧ (tb.expirationTime < ta.expirationTime →
        s2.taskQueue = [tb, ta]
        ∧ workLoopTrace (workLoop quietEnv s2.currentTime 3 s2) =
            some (false, [tb.id, ta.id]))
    ∧ (p1 = p2 → d = 0 →
        ta.expirationTime = tb.expirationTime ∧ ta.id < tb.id
        ∧ s2.taskQueue = [ta, tb]
        ∧ workLoopTrace (workLoop quietEnv s2.currentTime 3 s2) =
            some (false, [ta.id, tb.id])) := by
  rw [scheduleCallback_immediate] at hra
  rw [hics, hipw] at hra
  simp only [Bool.not_false, Bool.and_self, if_true] at hra
  injection hra with hta hs1
  rw [scheduleCallback_immediate] at hrb
  rw [← hs1] at hrb
  simp only [Bool.not_true, Bool.false_and, Bool.and_false, Bool.false_eq_true,
    if_false, Bool.not_false] at hrb
  injection hrb with htb hs2
  subst hta
  subst htb
  subst hs2
  rw [hq]
  refine ⟨?_, ?_, ?_⟩
  · intro hlt
    simp only at hlt
    have hbefore : taskBefore
        { id := s0.taskIdCounter, callback := some cb1, priorityLevel := p1,
          startTime := s0.currentTime,
          expirationTime := s0.currentTime + timeoutForPriority p1,
          sortIndex := s0.currentTime + timeoutForPriority p1 }
        { id := s0.taskIdCounter + 1, callback := some cb2, priorityLevel := p2,
          startTime := s0.currentTime + d,
          expirationTime := s0.currentTime + d + timeoutForPriority p2,
          sortIndex := s0.currentTime + d + timeoutForPriority p2 } = true := by
      simp [taskBefore, hlt]
    constructor
    · simp [push, hbefore]
    · apply workLoop_two_tasks _ _ cb1 cb2 _ rfl rfl ht1 ht2
      · simp [push, hbefore]
      · exact htq
      · exact hinv
  · intro hlt
    simp only at hlt
    have hbefore : taskBefore
        { id := s0.taskIdCounter, callback := some cb1, priorityLevel := p1,
          startTime := s0.currentTime,
          expirationTime := s0.currentTime + timeoutForPriority p1,
          sortIndex := s0.currentTime + timeoutForPriority p1 }
        { id := s0.taskIdCounter + 1, callback := some cb2, priorityLevel := p2,
          startTime := s0.currentTime + d,
          expirationTime := s0.currentTime + d + timeoutForPriority p2,
          sortIndex := s0.currentTime + d + timeoutForPriority p2 } = false := by
      simp [taskBefore]
      omega
    constructor
    · simp [push, hbefore]
    · apply workLoop_two_tasks _ _ cb2 cb1 _ rfl rfl ht2 ht1
      · simp [push, hbefore]
      · exact htq
      · exact hinv
  · intro hp hd
    subst hp
    subst hd
    simp only [add_zero]
    have hbefore : taskBefore
        { id := s0.taskIdCounter, callback := some cb1, priorityLevel := p1,
          startTime := s0.currentTime,
          expirationTime := s0.currentTime + timeoutForPriority p1,
          sortIndex := s0.currentTime + timeoutForPriority p1 }
        { id := s0.taskIdCounter + 1, callback := some cb2, priorityLevel := p1,
          startTime := s0.currentTime,
          expirationTime := s0.currentTime + timeoutForPriority p1,
          sortIndex := s0.currentTime + timeoutForPriority p1 } = true := by
      simp [taskBefore, Nat.le_succ]
    refine ⟨trivial, by omega, by simp [push, hbefore], ?_⟩
    exact workLoop_two_tasks
      { id := s0.taskIdCounter, callback := some cb1, priorityLevel := p1,
        startTime := s0.currentTime,
        expirationTime := s0.currentTime + timeoutForPriority p1,
        sortIndex := s0.currentTime + timeoutForPriority p1 }
      { id := s0.taskIdCounter + 1, callback := some cb2, priorityLevel := p1,
        startTime := s0.currentTime,
        expirationTime := s0.currentTime + timeoutForPriority p1,
        sortIndex := s0.currentTime + timeoutForPriority p1 }
      cb1 cb2 s0.currentTime rfl rfl ht1 ht2 _ (by simp [push, hbefore]) htq hinv


/-- Witness for C9: the user-blocking task (timeout 250) scheduled before a
normal task (timeout 5000) sits first in the queue and its callback runs
first in a full turn. -/
theorem c9_scheduler_ordering_witness :
    c9r2.2.taskQueue = [c9r1.1, c9r2.1]
    ∧ workLoopTrace (workLoop quietEnv c9r2.2.currentTime 3 c9r2.2) =
        some (false, [c9r1.1.id, c9r2.1.id]) :=
  (c9_scheduler_ordering c9s0 UserBlockingPriority NormalPriority cbDone cbDone 0
      c9r1.1 c9r1.2 c9r2.1 c9r2.2 rfl rfl rfl rfl rfl
      (fun _ => ⟨0, rfl⟩) (fun _ => ⟨0, rfl⟩) rfl rfl).1 (by decide)

end ReactCore
